import Mathlib

/-!
Verification of the photo-storage core of the tanstart repository.

The data-access layer (src/lib/indexeddb.ts) stores Photo records in a
single IndexedDB object store keyed by id; the action boundary
(src/server/photoActions.ts) validates untrusted input with zod schemas
and wraps each gateway call in a try/catch that rethrows a generic
failure message.  The object store is shallowly embedded as a
List Photo; each operation threads the list explicitly.  The underlying
browser machinery (opening the database, transactions) can fail for
reasons outside the program; those failures are injected as an explicit
Except parameter where a claim needs them.
-/

namespace Tanstart

/-- A photo record, from the Photo interface of src/lib/indexeddb.ts:
auto-generated id, original file name, MIME type, base64 data. -/
structure Photo where
  id : String
  name : String
  type : String
  data : String
deriving Repr, DecidableEq

/-- The add input, Omit Photo id: the caller never supplies an id. -/
structure PhotoData where
  name : String
  type : String
  data : String
deriving Repr, DecidableEq

/-- The IndexedDB object store for collection photos, keyed by id. -/
abbrev DB := List Photo

/-- Semantics of IDBObjectStore.add with keyPath id: fails with a
ConstraintError when a record with the same key already exists,
otherwise appends the record.  The transaction is atomic, so on error
the store is unchanged. -/
def store_add (p : Photo) (db : DB) : Except String DB :=
  if db.any (fun q => q.id == p.id) then
    Except.error "Error adding photo: ConstraintError"
  else
    Except.ok (db ++ [p])

/-- The record literal of addPhoto: the spread of the input photo data
together with the generated id. -/
def mkPhoto (photoData : PhotoData) (id : String) : Photo :=
  { id := id, name := photoData.name, type := photoData.type,
    data := photoData.data }

/-- addPhoto from src/lib/indexeddb.ts: generates an id with
crypto.randomUUID, stores the full record via store.add, resolves with
the id.  The generated id is passed explicitly as freshId. -/
def addPhoto (photoData : PhotoData) (freshId : String) (db : DB) :
    Except String (String × DB) :=
  match store_add (mkPhoto photoData freshId) db with
  | Except.ok db2 => Except.ok (freshId, db2)
  | Except.error e => Except.error e

/-- getAllPhotos from src/lib/indexeddb.ts: walks a cursor over the
store, pushing each record onto an initially empty array. -/
def getAllPhotos (db : DB) : List Photo :=
  db.foldl (fun photos p => photos ++ [p]) []

/-- Modelled from the spec: deletePhoto of src/lib/indexeddb.ts is
imported by src/server/photoActions.ts but its implementation is not in
the sources.  Per spec section 4.1, deleteById removes the record with
the given id and deleting a non-existent id is a no-op, not an error. -/
def deletePhoto (id : String) (db : DB) : DB :=
  db.filter (fun p => !(p.id == id))

/-- Regex test for the zod pattern for the type field: the string must
start with the literal image/ followed by at least one character, where
the dot of the regex matches any character except a line terminator. -/
def typeMatchesImage (t : String) : Bool :=
  match t.toList with
  | 'i' :: 'm' :: 'a' :: 'g' :: 'e' :: '/' :: c :: _ =>
      !(c == '\n' || c == '\r' ||
        c == Char.ofNat 0x2028 || c == Char.ofNat 0x2029)
  | _ => false

/-- The issues addPhotoSchema of src/server/photoActions.ts collects,
with the field-level messages, in field order as zod reports them. -/
def addPhotoIssues (d : PhotoData) : List String :=
  (if d.name.length ≥ 1 then [] else ["Photo name cannot be empty."]) ++
  (if typeMatchesImage d.type then [] else ["Invalid image type."]) ++
  (if d.data.length ≥ 1 then [] else ["Photo data cannot be empty."])

/-- The parse step of addPhotoSchema: the validated data when no issue
was collected, otherwise the issues. -/
def validateAddPhoto (d : PhotoData) : Except (List String) PhotoData :=
  if (addPhotoIssues d).isEmpty then Except.ok d
  else Except.error (addPhotoIssues d)

/-- The check of deletePhotoSchema in src/server/photoActions.ts. -/
def validateDeletePhoto (id : String) : Except (List String) String :=
  if id.length ≥ 1 then Except.ok id
  else Except.error ["Photo ID cannot be empty."]

/-- The error surface of the action boundary: a zod validation failure
with its field messages, or a generic Error rethrown by a catch block. -/
inductive ServerError where
  | validation (msgs : List String)
  | failure (msg : String)
deriving Repr, DecidableEq

/-- The try/catch of getPhotosServerFn: any error from the gateway is
replaced by the generic failure message.  The gateway outcome is the
argument. -/
def getPhotosServerFn (r : Except String (List Photo)) :
    Except ServerError (List Photo) :=
  match r with
  | Except.ok photos => Except.ok photos
  | Except.error _ => Except.error (ServerError.failure "Failed to retrieve photos.")

/-- The try/catch of addPhotoServerFn: on success the new id is
returned with the updated store; any error from the gateway is replaced
by the generic failure message and the store is in its prior state. -/
def addPhotoCatch (db : DB) (r : Except String (String × DB)) :
    Except ServerError String × DB :=
  match r with
  | Except.ok (id, db2) => (Except.ok id, db2)
  | Except.error _ => (Except.error (ServerError.failure "Failed to add photo."), db)

/-- addPhotoServerFn from src/server/photoActions.ts: zod validation of
the input, then dbAddPhoto inside try/catch.  The id generated by
crypto.randomUUID inside the gateway is passed explicitly as freshId. -/
def addPhotoServerFn (input : PhotoData) (freshId : String) (db : DB) :
    Except ServerError String × DB :=
  match validateAddPhoto input with
  | Except.error msgs => (Except.error (ServerError.validation msgs), db)
  | Except.ok d => addPhotoCatch db (addPhoto d freshId db)

/-- The try/catch of deletePhotoServerFn: any error from the gateway is
replaced by the generic failure message and the store is in its prior
state. -/
def deletePhotoCatch (db : DB) (r : Except String DB) :
    Except ServerError Unit × DB :=
  match r with
  | Except.ok db2 => (Except.ok (), db2)
  | Except.error _ => (Except.error (ServerError.failure "Failed to delete photo."), db)

/-- deletePhotoServerFn from src/server/photoActions.ts: zod validation
of the id, then dbDeletePhoto inside try/catch.  The modelled gateway
delete never fails on its own. -/
def deletePhotoServerFn (id : String) (db : DB) :
    Except ServerError Unit × DB :=
  match validateDeletePhoto id with
  | Except.error msgs => (Except.error (ServerError.validation msgs), db)
  | Except.ok i => deletePhotoCatch db (Except.ok (deletePhoto i db))

/-- States of the photo collection reachable through the public action
surface, starting from a fresh store.  Listing does not change the
state; add and delete step through the server functions with an
arbitrary generated id. -/
inductive Reachable : DB → Prop where
  | init : Reachable []
  | add (input : PhotoData) (freshId : String) (db : DB) :
      Reachable db → Reachable (addPhotoServerFn input freshId db).2
  | del (id : String) (db : DB) :
      Reachable db → Reachable (deletePhotoServerFn id db).2

/-- One getPhotos call acting on the store state: the readonly cursor
walk returns the records and leaves the store unchanged. -/
def listOp (db : DB) : List Photo × DB :=
  (getAllPhotos db, db)

/-- readCount from the server-funcs demo route: returns the counter. -/
def readCount (countStore : Int) : Int :=
  countStore

/-- incrementCount from the server-funcs demo route: adds the increment
to the counter and returns the new value; the pair is the returned
value and the new store. -/
def incrementCount (increment : Int) (countStore : Int) : Int × Int :=
  (countStore + increment, countStore + increment)

/-- The validator of updateCount: the identity, accepting any number. -/
def updateCountValidator (d : Int) : Int :=
  d

/-- The module initializer of the demo route: if the global counter is
falsy (undefined, or the number 0) it is set to 22, otherwise kept.
The prior global is none when undefined. -/
def initCountStore : Option Int → Int
  | none => 22
  | some v => if v = 0 then 22 else v

/-! ### Helper lemmas -/

/-- A string has positive length exactly when it is not empty. -/
theorem string_length_pos (s : String) : 0 < s.length ↔ s ≠ "" := by
  rw [← String.length_data, List.length_pos]
  constructor
  · intro h hc; subst hc; simp at h
  · intro h hc
    apply h
    apply String.ext
    simpa using hc

/-- The cursor walk of getAllPhotos returns the records of the store. -/
theorem getAllPhotos_eq (db : DB) : getAllPhotos db = db := by
  suffices h : ∀ acc : List Photo,
      db.foldl (fun photos p => photos ++ [p]) acc = acc ++ db by
    simpa using h []
  induction db with
  | nil => intro acc; simp
  | cons p t ih => intro acc; simp [List.foldl_cons, ih]

/-- Validation succeeds exactly when the three field checks pass, and
it returns the input unchanged. -/
theorem validateAddPhoto_ok_iff (d : PhotoData) :
    validateAddPhoto d = Except.ok d ↔
      (d.name ≠ "" ∧ typeMatchesImage d.type = true ∧ d.data ≠ "") := by
  unfold validateAddPhoto addPhotoIssues
  by_cases hn : 1 ≤ d.name.length
  · by_cases ht : typeMatchesImage d.type
    · by_cases hd : 1 ≤ d.data.length
      · simp [hn, ht, hd, ← string_length_pos]
        omega
      · simp [hn, ht, hd, ← string_length_pos]
        omega
    · simp [hn, ht]
  · simp [hn, ← string_length_pos]
    omega

/-- When validation succeeds it can only return the input itself. -/
theorem validateAddPhoto_ok_eq (d d' : PhotoData)
    (h : validateAddPhoto d = Except.ok d') : d' = d := by
  unfold validateAddPhoto at h
  split at h
  · exact (Except.ok.inj h).symm
  · cases h

/-- On a fresh id, addPhotoServerFn with a valid input appends exactly
the one new record and returns the generated id. -/
theorem addPhotoServerFn_ok (input : PhotoData) (freshId : String) (db : DB)
    (hvalid : validateAddPhoto input = Except.ok input)
    (hfresh : ∀ q ∈ db, q.id ≠ freshId) :
    addPhotoServerFn input freshId db =
      (Except.ok freshId, db ++ [mkPhoto input freshId]) := by
  have hany : db.any (fun q => q.id == freshId) = false := by
    simp only [List.any_eq_false]
    intro q hq
    simpa using hfresh q hq
  unfold addPhotoServerFn
  rw [hvalid]
  unfold addPhotoCatch addPhoto store_add
  simp only [mkPhoto]
  rw [hany]
  simp [mkPhoto]

/-- On an id collision, addPhotoServerFn with a valid input fails with
the generic failure message and leaves the store unchanged. -/
theorem addPhotoServerFn_collision (input : PhotoData) (freshId : String)
    (db : DB) (hvalid : validateAddPhoto input = Except.ok input)
    (hdup : ∃ q ∈ db, q.id = freshId) :
    addPhotoServerFn input freshId db =
      (Except.error (ServerError.failure "Failed to add photo."), db) := by
  have hany : db.any (fun q => q.id == freshId) = true := by
    simp only [List.any_eq_true]
    obtain ⟨q, hq, hqid⟩ := hdup
    exact ⟨q, hq, by simpa using hqid⟩
  unfold addPhotoServerFn
  rw [hvalid]
  unfold addPhotoCatch addPhoto store_add
  simp only [mkPhoto]
  rw [hany]
  simp

/-- Deleting with a non-empty id passes validation and filters the
store by the id. -/
theorem deletePhotoServerFn_eq (id : String) (db : DB) (hid : id ≠ "") :
    deletePhotoServerFn id db =
      (Except.ok (), db.filter (fun p => !(p.id == id))) := by
  have hlen : 1 ≤ id.length := (string_length_pos id).mpr hid
  unfold deletePhotoServerFn validateDeletePhoto
  simp [hlen, deletePhotoCatch, deletePhoto]

/-- Filtering away a single occurrence: when the record ids are
distinct and the id occurs, the filtered store is one shorter. -/
theorem filter_ne_length (id : String) (db : DB)
    (hnodup : (db.map Photo.id).Nodup) (hmem : id ∈ db.map Photo.id) :
    (db.filter (fun p => !(p.id == id))).length + 1 = db.length := by
  induction db with
  | nil => simp at hmem
  | cons p t ih =>
    simp only [List.map_cons, List.nodup_cons] at hnodup
    rw [List.map_cons, List.mem_cons] at hmem
    by_cases hpid : p.id = id
    · have hkeep : t.filter (fun q => !(q.id == id)) = t := by
        apply List.filter_eq_self.mpr
        intro q hq
        have hqmem : q.id ∈ t.map Photo.id := List.mem_map_of_mem Photo.id hq
        have hne : q.id ≠ id := by
          intro hc
          rw [hpid, ← hc] at hnodup
          exact hnodup.1 hqmem
        simpa using hne
      simp [List.filter_cons, hpid, hkeep]
    · have hmem2 : id ∈ t.map Photo.id := by
        rcases hmem with h | h
        · exact absurd h.symm hpid
        · exact h
      have ihh := ih hnodup.2 hmem2
      have hb : (fun q => !(q.id == id)) p = true := by simpa using hpid
      rw [List.filter_cons, if_pos hb, List.length_cons, List.length_cons]
      omega

/-- addPhotoServerFn never removes or rewrites an existing record. -/
theorem addPhotoServerFn_keeps (input : PhotoData) (freshId : String)
    (db : DB) (p : Photo) (hp : p ∈ db) :
    p ∈ (addPhotoServerFn input freshId db).2 := by
  unfold addPhotoServerFn
  cases hval : validateAddPhoto input with
  | error msgs => simpa using hp
  | ok d =>
    unfold addPhotoCatch addPhoto store_add
    simp only [mkPhoto]
    by_cases hany : db.any (fun q => q.id == freshId)
    · rw [hany]
      simpa using hp
    · rw [Bool.eq_false_iff.mpr hany]
      exact List.mem_append.mpr (Or.inl hp)

/-- deletePhotoServerFn removes only records carrying the target id. -/
theorem deletePhotoServerFn_keeps (id : String) (db : DB) (p : Photo)
    (hp : p ∈ db) (hne : p.id ≠ id) :
    p ∈ (deletePhotoServerFn id db).2 := by
  unfold deletePhotoServerFn
  cases hval : validateDeletePhoto id with
  | error msgs => simpa using hp
  | ok i =>
    have hi : i = id := by
      unfold validateDeletePhoto at hval
      by_cases hlen : 1 ≤ id.length
      · simp [hlen] at hval; exact hval.symm
      · simp [hlen] at hval
    subst hi
    unfold deletePhotoCatch deletePhoto
    simp only []
    apply List.mem_filter.mpr
    exact ⟨hp, by simpa using hne⟩

/-- Rejected input leaves addPhotoServerFn with the validation error
and the prior store. -/
theorem addPhotoServerFn_invalid (input : PhotoData) (freshId : String)
    (db : DB) (msgs : List String)
    (hval : validateAddPhoto input = Except.error msgs) :
    addPhotoServerFn input freshId db =
      (Except.error (ServerError.validation msgs), db) := by
  unfold addPhotoServerFn
  rw [hval]

/-- An empty id is rejected by the delete schema and the store is
unchanged. -/
theorem deletePhotoServerFn_empty_id (db : DB) :
    deletePhotoServerFn "" db =
      (Except.error (ServerError.validation ["Photo ID cannot be empty."]), db) := by
  unfold deletePhotoServerFn validateDeletePhoto
  simp

/-- One add step preserves the field validity and id uniqueness of the
store. -/
theorem add_step_invariant (input : PhotoData) (freshId : String) (db : DB)
    (hfields : ∀ p ∈ db,
      p.name ≠ "" ∧ typeMatchesImage p.type = true ∧ p.data ≠ "")
    (hnodup : (db.map Photo.id).Nodup) :
    (∀ p ∈ (addPhotoServerFn input freshId db).2,
        p.name ≠ "" ∧ typeMatchesImage p.type = true ∧ p.data ≠ "") ∧
    (((addPhotoServerFn input freshId db).2).map Photo.id).Nodup := by
  cases hval : validateAddPhoto input with
  | error msgs =>
    rw [addPhotoServerFn_invalid input freshId db msgs hval]
    exact ⟨hfields, hnodup⟩
  | ok d =>
    have hd : d = input := validateAddPhoto_ok_eq input d hval
    subst hd
    have hcond := (validateAddPhoto_ok_iff d).mp hval
    by_cases hex : ∃ q ∈ db, q.id = freshId
    · rw [addPhotoServerFn_collision d freshId db hval hex]
      exact ⟨hfields, hnodup⟩
    · have hfresh : ∀ q ∈ db, q.id ≠ freshId := by
        intro q hq hc
        exact hex ⟨q, hq, hc⟩
      rw [addPhotoServerFn_ok d freshId db hval hfresh]
      dsimp only
      constructor
      · intro p hp
        rcases List.mem_append.mp hp with h | h
        · exact hfields p h
        · have hpd : p = mkPhoto d freshId := by simpa using h
          subst hpd
          exact ⟨hcond.1, hcond.2.1, hcond.2.2⟩
      · rw [List.map_append]
        have hnotin : freshId ∉ db.map Photo.id := by
          intro hc
          rcases List.mem_map.mp hc with ⟨q, hq, hqid⟩
          exact hfresh q hq hqid
        simp [List.nodup_append, hnodup, hnotin, mkPhoto]

/-- One delete step preserves the field validity and id uniqueness of
the store. -/
theorem del_step_invariant (id : String) (db : DB)
    (hfields : ∀ p ∈ db,
      p.name ≠ "" ∧ typeMatchesImage p.type = true ∧ p.data ≠ "")
    (hnodup : (db.map Photo.id).Nodup) :
    (∀ p ∈ (deletePhotoServerFn id db).2,
        p.name ≠ "" ∧ typeMatchesImage p.type = true ∧ p.data ≠ "") ∧
    (((deletePhotoServerFn id db).2).map Photo.id).Nodup := by
  by_cases hid : id = ""
  · subst hid
    rw [deletePhotoServerFn_empty_id db]
    exact ⟨hfields, hnodup⟩
  · rw [deletePhotoServerFn_eq id db hid]
    constructor
    · intro p hp
      exact hfields p (List.mem_filter.mp hp).1
    · exact List.Nodup.sublist
        (List.Sublist.map Photo.id (List.filter_sublist db)) hnodup

/-- Every reachable store has valid fields and distinct ids. -/
theorem reachable_fields_nodup (db : DB) (h : Reachable db) :
    (∀ p ∈ db,
      p.name ≠ "" ∧ typeMatchesImage p.type = true ∧ p.data ≠ "") ∧
    (db.map Photo.id).Nodup := by
  induction h with
  | init => exact ⟨by simp, by simp⟩
  | add input freshId db hdb ih => exact add_step_invariant input freshId db ih.1 ih.2
  | del id db hdb ih => exact del_step_invariant id db ih.1 ih.2

/-! ### Claim theorems -/

/-- Claim C1: for every input with non-empty name, type matching the
image pattern, and non-empty data, addPhoto succeeds and returns a
non-empty id, and a getPhotos call performed after it includes exactly
one record whose id is the returned id and whose name, type, and data
equal the input fields.  The id generated by crypto.randomUUID is
non-empty and fresh, which the hypotheses hid and hfresh record. -/
theorem spec_addPhoto_valid_roundtrip (input : PhotoData) (freshId : String)
    (db : DB) (hname : input.name ≠ "")
    (htype : typeMatchesImage input.type = true) (hdata : input.data ≠ "")
    (hid : freshId ≠ "") (hfresh : ∀ q ∈ db, q.id ≠ freshId) :
    (addPhotoServerFn input freshId db).1 = Except.ok freshId ∧
    freshId ≠ "" ∧
    (getAllPhotos (addPhotoServerFn input freshId db).2).filter
        (fun p => p.id == freshId) =
      [Photo.mk freshId input.name input.type input.data] := by
  have hvalid : validateAddPhoto input = Except.ok input :=
    (validateAddPhoto_ok_iff input).mpr ⟨hname, htype, hdata⟩
  have hok := addPhotoServerFn_ok input freshId db hvalid hfresh
  rw [hok]
  dsimp only
  refine ⟨rfl, hid, ?_⟩
  rw [getAllPhotos_eq, List.filter_append]
  have h1 : db.filter (fun p => p.id == freshId) = [] := by
    rw [List.filter_eq_nil_iff]
    intro q hq
    simpa using hfresh q hq
  rw [h1]
  simp [mkPhoto]

/-- Concrete instance of claim C1 at a one-record add on a fresh
store. -/
theorem spec_addPhoto_valid_roundtrip_witness :
    (PhotoData.mk "a.png" "image/png" "X").name ≠ "" ∧
    typeMatchesImage (PhotoData.mk "a.png" "image/png" "X").type = true ∧
    (PhotoData.mk "a.png" "image/png" "X").data ≠ "" ∧
    ("u1" : String) ≠ "" ∧
    ((addPhotoServerFn (PhotoData.mk "a.png" "image/png" "X") "u1" []).1 =
        Except.ok "u1" ∧
      ("u1" : String) ≠ "" ∧
      (getAllPhotos
            (addPhotoServerFn (PhotoData.mk "a.png" "image/png" "X") "u1"
              []).2).filter (fun p => p.id == "u1") =
        [Photo.mk "u1" "a.png" "image/png" "X"]) :=
  ⟨by decide, by decide, by decide, by decide,
   spec_addPhoto_valid_roundtrip (PhotoData.mk "a.png" "image/png" "X") "u1"
     [] (by decide) (by decide) (by decide) (by decide) (by simp)⟩

/-- Claim C2: for every add input in which the name is empty, or the
type does not match the image pattern, or the data is empty, the add
action fails with the validation error carrying the field-level
message, the storage layer is never invoked, and the store is
unchanged, so a getPhotos call after it returns the same collection. -/
theorem spec_addPhoto_invalid_rejected (input : PhotoData) (freshId : String)
    (db : DB)
    (hbad : input.name = "" ∨ typeMatchesImage input.type = false ∨
      input.data = "") :
    ∃ msgs : List String,
      addPhotoServerFn input freshId db =
        (Except.error (ServerError.validation msgs), db) ∧
      msgs ≠ [] ∧
      (input.name = "" → "Photo name cannot be empty." ∈ msgs) ∧
      (typeMatchesImage input.type = false → "Invalid image type." ∈ msgs) ∧
      (input.data = "" → "Photo data cannot be empty." ∈ msgs) ∧
      getAllPhotos (addPhotoServerFn input freshId db).2 = getAllPhotos db := by
  have hmem : ∃ m, m ∈ addPhotoIssues input := by
    rcases hbad with h | h | h
    · have hlen : input.name.length = 0 := by rw [h]; decide
      exact ⟨"Photo name cannot be empty.", by simp [addPhotoIssues, hlen]⟩
    · exact ⟨"Invalid image type.", by simp [addPhotoIssues, h]⟩
    · have hlen : input.data.length = 0 := by rw [h]; decide
      exact ⟨"Photo data cannot be empty.", by simp [addPhotoIssues, hlen]⟩
  have hne : addPhotoIssues input ≠ [] := by
    obtain ⟨m, hm⟩ := hmem
    exact List.ne_nil_of_mem hm
  have hemp : (addPhotoIssues input).isEmpty = false := by
    cases hl : addPhotoIssues input with
    | nil => exact absurd hl hne
    | cons a t => rfl
  have hval : validateAddPhoto input = Except.error (addPhotoIssues input) := by
    unfold validateAddPhoto
    rw [hemp]
    simp
  have heq := addPhotoServerFn_invalid input freshId db (addPhotoIssues input) hval
  refine ⟨addPhotoIssues input, heq, hne, ?_, ?_, ?_, ?_⟩
  · intro h
    have hlen : input.name.length = 0 := by rw [h]; decide
    simp [addPhotoIssues, hlen]
  · intro h
    simp [addPhotoIssues, h]
  · intro h
    have hlen : input.data.length = 0 := by rw [h]; decide
    simp [addPhotoIssues, hlen]
  · rw [heq]

/-- Concrete instance of claim C2: an input with a non-image type and
empty name and data is rejected and the store stays as it was. -/
theorem spec_addPhoto_invalid_rejected_witness :
    ((PhotoData.mk "" "text/plain" "").name = "" ∨
      typeMatchesImage (PhotoData.mk "" "text/plain" "").type = false ∨
      (PhotoData.mk "" "text/plain" "").data = "") ∧
    (∃ msgs : List String,
      addPhotoServerFn (PhotoData.mk "" "text/plain" "") "u1" [] =
        (Except.error (ServerError.validation msgs), []) ∧
      msgs ≠ [] ∧
      ((PhotoData.mk "" "text/plain" "").name = "" →
        "Photo name cannot be empty." ∈ msgs) ∧
      (typeMatchesImage (PhotoData.mk "" "text/plain" "").type = false →
        "Invalid image type." ∈ msgs) ∧
      ((PhotoData.mk "" "text/plain" "").data = "" →
        "Photo data cannot be empty." ∈ msgs) ∧
      getAllPhotos (addPhotoServerFn (PhotoData.mk "" "text/plain" "") "u1"
          []).2 = getAllPhotos []) :=
  ⟨Or.inl rfl,
   spec_addPhoto_invalid_rejected (PhotoData.mk "" "text/plain" "") "u1" []
     (Or.inl rfl)⟩

/-- Claim C3: for every collection containing a record with a given id,
deletePhoto removes exactly that record: no record with the id remains,
the count decreases by exactly one, and every other record is kept
unchanged.  Ids of stored records are distinct and non-empty, which the
hypotheses record. -/
theorem spec_deletePhoto_existing_removes (id : String) (db : DB)
    (hid : id ≠ "") (hmem : id ∈ db.map Photo.id)
    (hnodup : (db.map Photo.id).Nodup) :
    (deletePhotoServerFn id db).1 = Except.ok () ∧
    (∀ p ∈ (deletePhotoServerFn id db).2, p.id ≠ id) ∧
    ((deletePhotoServerFn id db).2).length + 1 = db.length ∧
    (∀ p ∈ db, p.id ≠ id → p ∈ (deletePhotoServerFn id db).2) ∧
    (∀ p ∈ (deletePhotoServerFn id db).2, p ∈ db) := by
  have heq := deletePhotoServerFn_eq id db hid
  rw [heq]
  dsimp only
  refine ⟨rfl, ?_, ?_, ?_, ?_⟩
  · intro p hp
    have := (List.mem_filter.mp hp).2
    simpa using this
  · exact filter_ne_length id db hnodup hmem
  · intro p hp hne
    exact List.mem_filter.mpr ⟨hp, by simpa using hne⟩
  · intro p hp
    exact (List.mem_filter.mp hp).1

/-- Concrete instance of claim C3 at a two-record store. -/
theorem spec_deletePhoto_existing_removes_witness :
    ("u1" : String) ≠ "" ∧
    "u1" ∈ ([Photo.mk "u1" "a" "image/png" "d",
             Photo.mk "u2" "b" "image/jpeg" "e"].map Photo.id) ∧
    (([Photo.mk "u1" "a" "image/png" "d",
       Photo.mk "u2" "b" "image/jpeg" "e"].map Photo.id).Nodup) ∧
    ((deletePhotoServerFn "u1" [Photo.mk "u1" "a" "image/png" "d",
        Photo.mk "u2" "b" "image/jpeg" "e"]).1 = Except.ok () ∧
     (∀ p ∈ (deletePhotoServerFn "u1" [Photo.mk "u1" "a" "image/png" "d",
        Photo.mk "u2" "b" "image/jpeg" "e"]).2, p.id ≠ "u1") ∧
     ((deletePhotoServerFn "u1" [Photo.mk "u1" "a" "image/png" "d",
        Photo.mk "u2" "b" "image/jpeg" "e"]).2).length + 1 =
       [Photo.mk "u1" "a" "image/png" "d",
        Photo.mk "u2" "b" "image/jpeg" "e"].length ∧
     (∀ p ∈ [Photo.mk "u1" "a" "image/png" "d",
        Photo.mk "u2" "b" "image/jpeg" "e"], p.id ≠ "u1" →
        p ∈ (deletePhotoServerFn "u1" [Photo.mk "u1" "a" "image/png" "d",
          Photo.mk "u2" "b" "image/jpeg" "e"]).2) ∧
     (∀ p ∈ (deletePhotoServerFn "u1" [Photo.mk "u1" "a" "image/png" "d",
        Photo.mk "u2" "b" "image/jpeg" "e"]).2,
        p ∈ [Photo.mk "u1" "a" "image/png" "d",
          Photo.mk "u2" "b" "image/jpeg" "e"])) :=
  ⟨by decide, by decide, by decide,
   spec_deletePhoto_existing_removes "u1"
     [Photo.mk "u1" "a" "image/png" "d", Photo.mk "u2" "b" "image/jpeg" "e"]
     (by decide) (by decide) (by decide)⟩

/-- Claim C4: for every non-empty id that was never inserted,
deletePhoto succeeds without raising any error and the collection is
unchanged, so a getPhotos call after it returns exactly the records
present before. -/
theorem spec_deletePhoto_absent_noop (id : String) (db : DB)
    (hid : id ≠ "") (habs : ∀ p ∈ db, p.id ≠ id) :
    deletePhotoServerFn id db = (Except.ok (), db) ∧
    getAllPhotos (deletePhotoServerFn id db).2 = getAllPhotos db := by
  have hkeep : db.filter (fun p => !(p.id == id)) = db :=
    List.filter_eq_self.mpr (fun p hp => by simpa using habs p hp)
  have heq := deletePhotoServerFn_eq id db hid
  rw [heq, hkeep]
  exact ⟨rfl, rfl⟩

/-- Concrete instance of claim C4: deleting an id absent from a
one-record store is a no-op. -/
theorem spec_deletePhoto_absent_noop_witness :
    ("zz" : String) ≠ "" ∧
    (∀ p ∈ [Photo.mk "u1" "a" "image/png" "d"], p.id ≠ "zz") ∧
    (deletePhotoServerFn "zz" [Photo.mk "u1" "a" "image/png" "d"] =
        (Except.ok (), [Photo.mk "u1" "a" "image/png" "d"]) ∧
      getAllPhotos (deletePhotoServerFn "zz"
          [Photo.mk "u1" "a" "image/png" "d"]).2 =
        getAllPhotos [Photo.mk "u1" "a" "image/png" "d"]) :=
  ⟨by decide, by decide,
   spec_deletePhoto_absent_noop "zz" [Photo.mk "u1" "a" "image/png" "d"]
     (by decide) (by decide)⟩

/-- Claim C5: every collection state reachable through the public
surface stores only records with non-empty name, image-pattern type and
non-empty data, with pairwise distinct ids; moreover no operation
mutates a surviving record: add keeps every existing record and delete
keeps every record whose id differs from the target. -/
theorem spec_reachable_state_invariant (db : DB) (h : Reachable db) :
    (∀ p ∈ db,
      p.name ≠ "" ∧ typeMatchesImage p.type = true ∧ p.data ≠ "") ∧
    (db.map Photo.id).Nodup ∧
    (∀ (input : PhotoData) (freshId : String), ∀ p ∈ db,
        p ∈ (addPhotoServerFn input freshId db).2) ∧
    (∀ (id : String), ∀ p ∈ db, p.id ≠ id →
        p ∈ (deletePhotoServerFn id db).2) := by
  obtain ⟨h1, h2⟩ := reachable_fields_nodup db h
  refine ⟨h1, h2, ?_, ?_⟩
  · intro input freshId p hp
    exact addPhotoServerFn_keeps input freshId db p hp
  · intro id p hp hne
    exact deletePhotoServerFn_keeps id db p hp hne

/-- Concrete instance of claim C5 at the initial empty store. -/
theorem spec_reachable_state_invariant_witness :
    Reachable ([] : DB) ∧
    ((∀ p ∈ ([] : DB),
        p.name ≠ "" ∧ typeMatchesImage p.type = true ∧ p.data ≠ "") ∧
      (([] : DB).map Photo.id).Nodup ∧
      (∀ (input : PhotoData) (freshId : String), ∀ p ∈ ([] : DB),
          p ∈ (addPhotoServerFn input freshId []).2) ∧
      (∀ (id : String), ∀ p ∈ ([] : DB), p.id ≠ id →
          p ∈ (deletePhotoServerFn id []).2)) :=
  ⟨Reachable.init, spec_reachable_state_invariant [] Reachable.init⟩

/-- Claim C6: on a freshly initialized store with no records, the
listing gateway returns the empty sequence and the getPhotos action
succeeds with it rather than failing. -/
theorem spec_getPhotos_empty_store :
    getAllPhotos ([] : DB) = [] ∧
    getPhotosServerFn (Except.ok (getAllPhotos ([] : DB))) =
      Except.ok ([] : List Photo) :=
  ⟨rfl, rfl⟩

/-- Claim C7: a getPhotos call leaves the store unchanged, so two
getPhotos calls with no intervening add or delete return the same set
of records. -/
theorem spec_getPhotos_idempotent (db : DB) :
    (listOp db).2 = db ∧
    ∀ p : Photo, p ∈ (listOp db).1 ↔ p ∈ (listOp (listOp db).2).1 :=
  ⟨rfl, fun _ => Iff.rfl⟩

/-- Claim C8: the stored id of an added record is the one generated by
the storage layer, never taken from the caller input, which has no id
field; and when the underlying write fails through a duplicate-id
collision the action fails with the generic write-failure message and
the existing record is not overwritten. -/
theorem spec_addPhoto_id_generated :
    (∀ (input : PhotoData) (freshId : String) (db : DB),
        validateAddPhoto input = Except.ok input →
        (∃ q ∈ db, q.id = freshId) →
        addPhotoServerFn input freshId db =
          (Except.error (ServerError.failure "Failed to add photo."), db)) ∧
    (∀ (input : PhotoData) (freshId : String) (db : DB),
        validateAddPhoto input = Except.ok input →
        (∀ q ∈ db, q.id ≠ freshId) →
        addPhotoServerFn input freshId db =
          (Except.ok freshId, db ++ [mkPhoto input freshId])) :=
  ⟨fun input freshId db hv hd =>
      addPhotoServerFn_collision input freshId db hv hd,
   fun input freshId db hv hf => addPhotoServerFn_ok input freshId db hv hf⟩

/-- Concrete instance of claim C8: a collision on u1 fails without
overwriting, and a fresh u2 stores the record under the generated
id. -/
theorem spec_addPhoto_id_generated_witness :
    validateAddPhoto (PhotoData.mk "a.png" "image/png" "X") =
      Except.ok (PhotoData.mk "a.png" "image/png" "X") ∧
    (∃ q ∈ [Photo.mk "u1" "n" "image/png" "d"], q.id = "u1") ∧
    addPhotoServerFn (PhotoData.mk "a.png" "image/png" "X") "u1"
        [Photo.mk "u1" "n" "image/png" "d"] =
      (Except.error (ServerError.failure "Failed to add photo."),
       [Photo.mk "u1" "n" "image/png" "d"]) ∧
    addPhotoServerFn (PhotoData.mk "a.png" "image/png" "X") "u2"
        [Photo.mk "u1" "n" "image/png" "d"] =
      (Except.ok "u2",
       [Photo.mk "u1" "n" "image/png" "d"] ++
         [mkPhoto (PhotoData.mk "a.png" "image/png" "X") "u2"]) :=
  ⟨rfl, by decide,
   spec_addPhoto_id_generated.1 (PhotoData.mk "a.png" "image/png" "X") "u1"
     [Photo.mk "u1" "n" "image/png" "d"] rfl (by decide),
   spec_addPhoto_id_generated.2 (PhotoData.mk "a.png" "image/png" "X") "u2"
     [Photo.mk "u1" "n" "image/png" "d"] rfl (by decide)⟩

/-- Claim C9: every underlying read or write failure occurring after
the store was opened is surfaced to the caller as the generic failure
message of the respective action, never silently swallowed, and the
failing action leaves the collection in its prior state. -/
theorem spec_failures_surfaced (e : String) (db : DB) :
    getPhotosServerFn (Except.error e) =
      Except.error (ServerError.failure "Failed to retrieve photos.") ∧
    addPhotoCatch db (Except.error e) =
      (Except.error (ServerError.failure "Failed to add photo."), db) ∧
    deletePhotoCatch db (Except.error e) =
      (Except.error (ServerError.failure "Failed to delete photo."), db) :=
  ⟨rfl, rfl, rfl⟩

/-- Claim C10: readCount returns the counter, incrementCount adds any
number, including zero or a negative one, and returns the new value,
the updateCount validator accepts every number unchanged, and the
module initializer sets the counter to 22 exactly when the current
value is falsy, so a counter holding exactly 0 is reset to 22. -/
theorem spec_counter_demo (c n v : Int) :
    readCount c = c ∧
    incrementCount n c = (c + n, c + n) ∧
    updateCountValidator n = n ∧
    initCountStore none = 22 ∧
    initCountStore (some v) = (if v = 0 then 22 else v) ∧
    initCountStore (some 0) = 22 :=
  ⟨rfl, rfl, rfl, rfl, rfl, rfl⟩

end Tanstart
